import Mathlib

/-!
Shallow embedding of the astro-adapter-nekoweb deployment pipeline
(version 3.0.0 source, `astro:build:done` hook together with
`NekoAPI` / `BigFileExt.finalizeUpload`), plus the header-building
helpers of the 2.0.3 source (`getToken`) used for the credential
claims.  Remote calls are driven by an `Oracle` that fixes the
outcome of each network call; the run produces a result, a trace of
events (remote calls, local file-system steps, log lines) and the
final local file-system state.
-/

set_option maxRecDepth 8000

namespace Neko

/-- JavaScript truthiness of an optional string: `undefined` and the
empty string are falsy (`if (cookie)`, `if (rssFeed)` in the source). -/
def truthyO : Option String → Bool
  | none => false
  | some s => s ≠ ""

/-- Errors of the deployment run, one per fatal exit of the source. -/
inductive DeployError
  | missingApiKey
  | siteInfoError
  | missingFolder
  | rssReadError
  | sessionCreateError
  | uploadAppendError
  | importError
deriving Repr, DecidableEq

/-- Result of the run or of `finalizeUpload`: resolved, or rejected
with an error that propagates to the caller. -/
inductive RunResult
  | success
  | fatal (e : DeployError)
deriving Repr, DecidableEq

/-- Events of a deployment run: remote HTTP calls (with the outcome
the oracle assigned to them), local file-system steps, and log lines. -/
inductive Ev
  | siteInfo (ok : Bool)
  | rmTmp
  | mkTmp
  | stage
  | zipped
  | createBig (ok : Bool)
  | append (ok : Bool)
  | deleteF (folder : String) (ok : Bool)
  | importBig (ok : Bool)
  | csrfInfo (ok : Bool)
  | csrfGet (ok : Bool)
  | edit (pathname content : String) (ok : Bool)
  | unlinkZip
  | logInfo (msg : String)
  | logWarn (msg : String)
  | logError (msg : String)
deriving Repr, DecidableEq

/-- Events of the big-file session protocol (create / append /
delete-before-import / import). -/
def Ev.isSession : Ev → Bool
  | .createBig _ => true
  | .append _ => true
  | .deleteF _ _ => true
  | .importBig _ => true
  | _ => false

/-- Events of the cookie-authenticated metadata side channel
(CSRF site-info call, CSRF token call, file edits). -/
def Ev.isMeta : Ev → Bool
  | .csrfInfo _ => true
  | .csrfGet _ => true
  | .edit _ _ _ => true
  | _ => false

/-- File-edit events. -/
def Ev.isEditEv : Ev → Bool
  | .edit _ _ _ => true
  | _ => false

/-- Import events together with all metadata events: everything that
must not happen once an earlier required step has failed. -/
def Ev.isImportOrMeta : Ev → Bool
  | .importBig _ => true
  | e => e.isMeta

/-- Adapter options of the 3.0.0 source (`Options`): `apiKey` required,
`domain`, `cookie`, `siteName`, `rssFeed` optional. -/
structure Config where
  apiKey : String
  domain : Option String
  cookie : Option String
  siteName : Option String
  rssFeed : Option String
deriving Repr, DecidableEq

/-- Outcome of every remote call of one run, fixed up front: the
shallow embedding of the network.  `siteFolder` is the `folder` field
the site-info response carries; `tsRss` and `tsMarker` are the two
`Date.now()` readings. -/
structure Oracle where
  siteInfoOk : Bool
  siteFolder : Option String
  createOk : Bool
  appendOk : Bool
  deleteOk : Bool
  importOk : Bool
  csrfInfoOk : Bool
  csrfOk : Bool
  rssEditOk : Bool
  markerEditOk : Bool
  tsRss : Nat
  tsMarker : Nat
deriving Repr, DecidableEq

/-- Local file-system state: whether the `.build-temp` staging
directory exists, whether the run's archive file exists, and the
contents of the build output directory as a path → content list. -/
structure FS where
  tmpExists : Bool
  zipExists : Bool
  outDir : List (String × String)
deriving Repr, DecidableEq

/-- Everything a run produces: its result, its event trace, and the
final local file-system state. -/
structure RunOut where
  result : RunResult
  trace : List Ev
  fs : FS
deriving Repr, DecidableEq

/-- Marker comment appended to the RSS feed content
(source line `rssContent = fs.readFileSync(...) + ...`). -/
def rssMarkerComment (ts : Nat) : String :=
  "<!-- deployed to Nekoweb using astro-adapter-nekoweb on " ++ toString ts ++ " -->"

/-- Pathname of the fixed marker file written during MetadataUpdate. -/
def markerPath : String := "/.astro-adapter-nekoweb.html"

/-- Content of the fixed marker file (the multi-line comment of the
3.0.0 source with `Date.now()` interpolated). -/
def markerFileContent (ts : Nat) : String :=
  "<!--\n    This is an auto-generated file created by astro-adapter-nekoweb.\n\n    This file is used to put you on the \x27Last Updated\x27 page\n    on Nekoweb.\n\n    You can delete this file if you want, but it will come\n    back the next time you deploy using astro-adapter-nekoweb.\n                \n    https://deploy.nekoweb.org/astro\n    https://github.com/indiefellas/astro-adapter-nekoweb\n\n    " ++ toString ts ++ "\n-->"

/-- Join of two path segments, modelling `path.join` on
separator-free arguments as used by the source. -/
def joinPath (a b : String) : String := a ++ "/" ++ b

/-- Warning logged when no cookie was supplied. -/
def cookieWarnMsg : String :=
  "Nekoweb Cookie not found. Skipping Recently Updated support..."

/-- Error log prefix of the `finalizeUpload` catch block. -/
def finalizeFailMsg : String := "Failed to upload."

/-- Rename of `404.html` to `not_found.html` inside a directory
listing, modelling the `fs.renameSync` guarded by `fs.existsSync`. -/
def rename404 (files : List (String × String)) : List (String × String) :=
  if (files.lookup "404.html").isSome then
    files.map (fun p => if p.1 = "404.html" then ("not_found.html", p.2) else p)
  else files

/-- Embedding of `BigFileExt.finalizeUpload` of the 3.0.0 source.
`this.import()` is started but NOT awaited (`let res = this.import()`):
its outcome gates nothing in the cookie path; in the no-cookie path the
promise is returned and awaited by the caller, so only there an import
failure rejects.  The surrounding try/catch logs every thrown error and
does not rethrow. -/
def finalizeUpload (o : Oracle) (hasUcfg : Bool) (siteName : String)
    (rssPath rssContent : Option String) : RunResult × List Ev :=
  if hasUcfg = false then
    if o.importOk then
      (.success, [.importBig true, .logWarn cookieWarnMsg])
    else
      (.fatal .importError, [.importBig false, .logWarn cookieWarnMsg])
  else
    if o.csrfInfoOk = false then
      (.success, [.importBig o.importOk, .csrfInfo false, .logError finalizeFailMsg])
    else if o.csrfOk = false then
      (.success, [.importBig o.importOk, .csrfInfo true, .csrfGet false,
        .logError finalizeFailMsg])
    else
      match rssPath, rssContent with
      | some p, some c =>
        if o.rssEditOk = false then
          (.success, [.importBig o.importOk, .csrfInfo true, .csrfGet true,
            .edit p c false, .logError finalizeFailMsg])
        else if o.markerEditOk = false then
          (.success, [.importBig o.importOk, .csrfInfo true, .csrfGet true,
            .edit p c true, .edit markerPath (markerFileContent o.tsMarker) false,
            .logError finalizeFailMsg])
        else
          (.success, [.importBig o.importOk, .csrfInfo true, .csrfGet true,
            .edit p c true, .edit markerPath (markerFileContent o.tsMarker) true,
            .logInfo "Sent cookie request"])
      | _, _ =>
        if o.markerEditOk = false then
          (.success, [.importBig o.importOk, .csrfInfo true, .csrfGet true,
            .edit markerPath (markerFileContent o.tsMarker) false,
            .logError finalizeFailMsg])
        else
          (.success, [.importBig o.importOk, .csrfInfo true, .csrfGet true,
            .edit markerPath (markerFileContent o.tsMarker) true,
            .logInfo "Sent cookie request"])

/-- Tail of the hook after the best-effort delete: await
`finalizeUpload`; a rejection propagates without cleanup, a resolution
is followed by the success log, archive unlink and staging removal. -/
def afterFinalize (t2 : List Ev) (fs3 : FS) : RunResult × List Ev → RunOut
  | (.fatal e, fevs) => { result := .fatal e, trace := t2 ++ fevs, fs := fs3 }
  | (.success, fevs) =>
    { result := .success,
      trace := t2 ++ fevs ++ [.logInfo "Successfully deployed", .unlinkZip, .rmTmp],
      fs := { fs3 with zipExists := false, tmpExists := false } }

/-- Embedding of the `astro:build:done` hook of the 3.0.0 source:
validation, site-info lookup, stale staging-directory removal, RSS
content read, 404 rename inside the output directory, staging, zip,
session create, append, best-effort delete, `finalizeUpload`, cleanup. -/
def buildDone (cfg : Config) (o : Oracle) (fs0 : FS) : RunOut :=
  if cfg.apiKey = "" then
    { result := .fatal .missingApiKey,
      trace := [.logError "Missing API key. You need to define it so you can deploy your site."],
      fs := fs0 }
  else if o.siteInfoOk = false then
    { result := .fatal .siteInfoError, trace := [.siteInfo false], fs := fs0 }
  else if truthyO o.siteFolder = false then
    { result := .fatal .missingFolder,
      trace := [.siteInfo true, .logError "Missing folder."], fs := fs0 }
  else
    let folder := o.siteFolder.getD ""
    let t0 : List Ev :=
      [.siteInfo true] ++ (if fs0.tmpExists then [Ev.rmTmp] else []) ++ [Ev.mkTmp]
    let fs1 : FS := { fs0 with tmpExists := true }
    let rssRead : Option (Option String) :=
      if truthyO cfg.rssFeed then
        match fs1.outDir.lookup (cfg.rssFeed.getD "") with
        | none => none
        | some s => some (some (s ++ "\n" ++ rssMarkerComment o.tsRss))
      else some none
    match rssRead with
    | none => { result := .fatal .rssReadError, trace := t0, fs := fs1 }
    | some rssContent =>
      let fs3 : FS := { fs1 with outDir := rename404 fs1.outDir, zipExists := true }
      let t1 := t0 ++ [Ev.stage, Ev.zipped]
      if o.createOk = false then
        { result := .fatal .sessionCreateError,
          trace := t1 ++ [.createBig false], fs := fs3 }
      else if o.appendOk = false then
        { result := .fatal .uploadAppendError,
          trace := t1 ++ [.createBig true, .append false], fs := fs3 }
      else
        let t2 := t1 ++ [Ev.createBig true, Ev.append true, Ev.deleteF folder o.deleteOk]
        let rssPath : Option String :=
          if truthyO cfg.rssFeed then
            some (joinPath ("/" ++ folder) (cfg.rssFeed.getD ""))
          else none
        afterFinalize t2 fs3
          (finalizeUpload o (truthyO cfg.cookie) (cfg.siteName.getD "") rssPath rssContent)

/-- Characterization of the result of `finalizeUpload`: only the
no-cookie path with a failed import rejects; every cookie-path run
resolves (the import promise is dropped and the catch swallows). -/
lemma finalizeUpload_fst (o : Oracle) (u : Bool) (sn : String)
    (rp rc : Option String) :
    (finalizeUpload o u sn rp rc).1 =
      (if u = false ∧ o.importOk = false then .fatal .importError else .success) := by
  unfold finalizeUpload
  rcases u with _ | _ <;> rcases h : o.importOk with _ | _ <;>
    simp [h] <;> repeat' split <;> try simp_all

/-- The session-protocol events of a `finalizeUpload` trace are exactly
one import call, carrying the oracle's import outcome. -/
lemma finalizeUpload_filter_session (o : Oracle) (u : Bool) (sn : String)
    (rp rc : Option String) :
    ((finalizeUpload o u sn rp rc).2).filter Ev.isSession = [Ev.importBig o.importOk] := by
  unfold finalizeUpload
  rcases u with _ | _ <;> rcases h : o.importOk with _ | _ <;>
    simp [h, Ev.isSession] <;> repeat' split <;> try simp_all [Ev.isSession]

/-- With no cookie, `finalizeUpload` issues no metadata call at all. -/
lemma finalizeUpload_noMeta (o : Oracle) (sn : String) (rp rc : Option String) :
    ((finalizeUpload o false sn rp rc).2).filter Ev.isMeta = [] := by
  unfold finalizeUpload
  rcases h : o.importOk with _ | _ <;> simp [h, Ev.isMeta]

/-- Result of the tail of the hook: only a no-cookie run with a
failed import propagates a fatal error out of `finalizeUpload`. -/
lemma afterFinalize_result (t2 : List Ev) (fs3 : FS) (o : Oracle) (u : Bool)
    (sn : String) (rp rc : Option String) :
    (afterFinalize t2 fs3 (finalizeUpload o u sn rp rc)).result =
      (if u = false ∧ o.importOk = false then .fatal .importError else .success) := by
  have h1 := finalizeUpload_fst o u sn rp rc
  rcases hfr : finalizeUpload o u sn rp rc with ⟨r, fevs⟩
  rw [hfr] at h1
  dsimp at h1
  subst h1
  rcases u with _ | _ <;> rcases him : o.importOk with _ | _ <;>
    simp [afterFinalize, him]

/-- Session-protocol calls of the tail of the hook: whatever the
prefix contained, followed by exactly one import call. -/
lemma afterFinalize_filter_session (t2 : List Ev) (fs3 : FS) (o : Oracle) (u : Bool)
    (sn : String) (rp rc : Option String) :
    (afterFinalize t2 fs3 (finalizeUpload o u sn rp rc)).trace.filter Ev.isSession =
      t2.filter Ev.isSession ++ [Ev.importBig o.importOk] := by
  have h2 := finalizeUpload_filter_session o u sn rp rc
  rcases hfr : finalizeUpload o u sn rp rc with ⟨r, fevs⟩
  rw [hfr] at h2
  dsimp at h2
  rcases r with _ | e <;>
    simp [afterFinalize, List.filter_append, h2, Ev.isSession]

/-- Final local state of the tail of the hook: cleanup runs exactly
when `finalizeUpload` resolved. -/
lemma afterFinalize_fs (t2 : List Ev) (fs3 : FS) (o : Oracle) (u : Bool)
    (sn : String) (rp rc : Option String) :
    (afterFinalize t2 fs3 (finalizeUpload o u sn rp rc)).fs =
      (if u = false ∧ o.importOk = false then fs3
       else { fs3 with tmpExists := false, zipExists := false }) := by
  have h1 := finalizeUpload_fst o u sn rp rc
  rcases hfr : finalizeUpload o u sn rp rc with ⟨r, fevs⟩
  rw [hfr] at h1
  dsimp at h1
  subst h1
  rcases u with _ | _ <;> rcases him : o.importOk with _ | _ <;>
    simp [afterFinalize, him]

/-- Guard for the RSS content read: either no RSS feed is configured,
or the configured relative path exists in the output directory
(otherwise `fs.readFileSync` throws). -/
def rssReadOk (cfg : Config) (fs0 : FS) : Bool :=
  !truthyO cfg.rssFeed || (fs0.outDir.lookup (cfg.rssFeed.getD "")).isSome

/-- Characterization of the session-protocol calls of a run: nothing
before the upload phase is reached, a failed create alone, a create
followed by the failed append, or the full create, append, delete
and import sequence. -/
lemma buildDone_filter_session (cfg : Config) (o : Oracle) (fs0 : FS) :
    (buildDone cfg o fs0).trace.filter Ev.isSession =
      (if cfg.apiKey = "" then []
       else if o.siteInfoOk = false then []
       else if truthyO o.siteFolder = false then []
       else if rssReadOk cfg fs0 = false then []
       else if o.createOk = false then [Ev.createBig false]
       else if o.appendOk = false then [Ev.createBig true, Ev.append false]
       else [Ev.createBig true, Ev.append true,
             Ev.deleteF (o.siteFolder.getD "") o.deleteOk,
             Ev.importBig o.importOk]) := by
  unfold buildDone
  by_cases hk : cfg.apiKey = "" <;>
    by_cases hsi : o.siteInfoOk = false <;>
      by_cases hsf : truthyO o.siteFolder = false <;>
        by_cases hrf : truthyO cfg.rssFeed = false <;>
          rcases hL : fs0.outDir.lookup (cfg.rssFeed.getD "") with _ | s <;>
            by_cases hcr : o.createOk = false <;>
              by_cases hap : o.appendOk = false <;>
                rcases htmp : fs0.tmpExists with _ | _ <;>
                  simp [hk, hsi, hsf, hrf, hL, hcr, hap, htmp, rssReadOk,
                    afterFinalize_filter_session, Ev.isSession]

/-- Characterization of the run result: each fatal exit in source
order, with the import failure only fatal in the no-cookie path
(the cookie path drops the import promise). -/
lemma buildDone_result_char (cfg : Config) (o : Oracle) (fs0 : FS) :
    (buildDone cfg o fs0).result =
      (if cfg.apiKey = "" then .fatal .missingApiKey
       else if o.siteInfoOk = false then .fatal .siteInfoError
       else if truthyO o.siteFolder = false then .fatal .missingFolder
       else if rssReadOk cfg fs0 = false then .fatal .rssReadError
       else if o.createOk = false then .fatal .sessionCreateError
       else if o.appendOk = false then .fatal .uploadAppendError
       else if truthyO cfg.cookie = false ∧ o.importOk = false then
         .fatal .importError
       else .success) := by
  unfold buildDone
  by_cases hk : cfg.apiKey = "" <;>
    by_cases hsi : o.siteInfoOk = false <;>
      by_cases hsf : truthyO o.siteFolder = false <;>
        by_cases hrf : truthyO cfg.rssFeed = false <;>
          rcases hL : fs0.outDir.lookup (cfg.rssFeed.getD "") with _ | s <;>
            by_cases hcr : o.createOk = false <;>
              by_cases hap : o.appendOk = false <;>
                simp [hk, hsi, hsf, hrf, hL, hcr, hap, rssReadOk,
                  afterFinalize_result]

/-- C1: for every deployment run against a target folder, the remote
calls are issued in the order session create, then append, then the
best-effort delete of the folder, then import; the import call only
happens after a successful append, and the delete outcome never
changes the run's result. -/
theorem c1_remote_call_order (cfg : Config) (o : Oracle) (fs0 : FS) :
    (∀ b : Bool, Ev.importBig b ∈ (buildDone cfg o fs0).trace →
      o.appendOk = true ∧
      (buildDone cfg o fs0).trace.filter Ev.isSession =
        [Ev.createBig true, Ev.append true,
         Ev.deleteF (o.siteFolder.getD "") o.deleteOk,
         Ev.importBig o.importOk]) ∧
    (buildDone cfg o fs0).result =
      (buildDone cfg { o with deleteOk := true } fs0).result := by
  constructor
  · intro b hb
    have hmem : Ev.importBig b ∈ (buildDone cfg o fs0).trace.filter Ev.isSession := by
      exact List.mem_filter.mpr ⟨hb, rfl⟩
    rw [buildDone_filter_session] at hmem
    rw [buildDone_filter_session]
    by_cases hk : cfg.apiKey = ""
    · simp [hk] at hmem
    by_cases hsi : o.siteInfoOk = false
    · simp [hk, hsi] at hmem
    by_cases hsf : truthyO o.siteFolder = false
    · simp [hk, hsi, hsf] at hmem
    by_cases hrr : rssReadOk cfg fs0 = false
    · simp [hk, hsi, hsf, hrr] at hmem
    by_cases hcr : o.createOk = false
    · simp [hk, hsi, hsf, hrr, hcr] at hmem
    rcases hap : o.appendOk with _ | _
    · simp [hk, hsi, hsf, hrr, hcr, hap] at hmem
    · exact ⟨rfl, by simp [hk, hsi, hsf, hrr, hcr, hap]⟩
  · rw [buildDone_result_char, buildDone_result_char]

/-- Sample configuration without a cookie and without an RSS feed. -/
def cfgPlain : Config := ⟨"key", none, none, none, none⟩

/-- Sample oracle: every remote call succeeds except the best-effort
delete, which fails. -/
def oDelFail : Oracle := ⟨true, some "build", true, true, false, true, true, true, true, true, 5, 6⟩

/-- Sample initial local file system: clean, with an empty output
directory. -/
def fsClean : FS := ⟨false, false, []⟩

/-- Witness for C1 at a concrete run whose best-effort delete fails. -/
theorem c1_remote_call_order_witness :
    Ev.importBig true ∈ (buildDone cfgPlain oDelFail fsClean).trace ∧
    (oDelFail.appendOk = true ∧
      (buildDone cfgPlain oDelFail fsClean).trace.filter Ev.isSession =
        [Ev.createBig true, Ev.append true,
         Ev.deleteF (oDelFail.siteFolder.getD "") oDelFail.deleteOk,
         Ev.importBig oDelFail.importOk]) ∧
    (buildDone cfgPlain oDelFail fsClean).result =
      (buildDone cfgPlain { oDelFail with deleteOk := true } fsClean).result :=
  ⟨by decide,
   (c1_remote_call_order cfgPlain oDelFail fsClean).1 true (by decide),
   (c1_remote_call_order cfgPlain oDelFail fsClean).2⟩

/-- Metadata calls of the tail of the hook in the no-cookie case:
none beyond what the prefix contained. -/
lemma afterFinalize_filter_meta (t2 : List Ev) (fs3 : FS) (o : Oracle)
    (sn : String) (rp rc : Option String) :
    (afterFinalize t2 fs3 (finalizeUpload o false sn rp rc)).trace.filter Ev.isMeta =
      t2.filter Ev.isMeta := by
  have h2 := finalizeUpload_noMeta o sn rp rc
  rcases hfr : finalizeUpload o false sn rp rc with ⟨r, fevs⟩
  rw [hfr] at h2
  dsimp at h2
  rcases r with _ | e <;>
    simp [afterFinalize, List.filter_append, h2, Ev.isMeta]

/-- A sublist of the pre-finalize trace is a sublist of the whole
run's trace. -/
lemma sublist_afterFinalize (x t2 : List Ev) (fs3 : FS) (fr : RunResult × List Ev)
    (h : x.Sublist t2) : x.Sublist (afterFinalize t2 fs3 fr).trace := by
  rcases fr with ⟨r, fevs⟩
  rcases r with _ | e <;> simp only [afterFinalize, List.append_assoc] <;>
    exact h.trans (List.sublist_append_left _ _)

/-- Local state after staging and archiving: the staging directory and
archive exist, and the output directory has undergone the 404 rename. -/
def stagedFS (fs0 : FS) : FS := ⟨true, true, rename404 fs0.outDir⟩

/-- Characterization of the final local file-system state of a run. -/
lemma buildDone_fs_char (cfg : Config) (o : Oracle) (fs0 : FS) :
    (buildDone cfg o fs0).fs =
      (if cfg.apiKey = "" then fs0
       else if o.siteInfoOk = false then fs0
       else if truthyO o.siteFolder = false then fs0
       else if rssReadOk cfg fs0 = false then { fs0 with tmpExists := true }
       else if o.createOk = false then stagedFS fs0
       else if o.appendOk = false then stagedFS fs0
       else if truthyO cfg.cookie = false ∧ o.importOk = false then stagedFS fs0
       else { stagedFS fs0 with tmpExists := false, zipExists := false }) := by
  unfold buildDone
  by_cases hk : cfg.apiKey = "" <;>
    by_cases hsi : o.siteInfoOk = false <;>
      by_cases hsf : truthyO o.siteFolder = false <;>
        by_cases hrf : truthyO cfg.rssFeed = false <;>
          rcases hL : fs0.outDir.lookup (cfg.rssFeed.getD "") with _ | s <;>
            by_cases hcr : o.createOk = false <;>
              by_cases hap : o.appendOk = false <;>
                simp [hk, hsi, hsf, hrf, hL, hcr, hap, rssReadOk,
                  afterFinalize_fs, stagedFS]

/-- Sample configuration with a cookie, no RSS feed. -/
def cfgCookie : Config := ⟨"key", none, some "cookie", none, none⟩

/-- Sample oracle: everything succeeds except the remote import. -/
def oImportFail : Oracle := ⟨true, some "build", true, true, true, false, true, true, true, true, 5, 6⟩

/-- C2: refuted by the 3.0.0 code.  With a cookie supplied and every
other call succeeding, a failed import call does not abort the run:
the import promise is dropped without being awaited, the CSRF fetch
and the marker edit still happen, and the run reports success. -/
theorem c2_import_failure_swallowed_with_cookie :
    (buildDone cfgCookie oImportFail fsClean).result = RunResult.success ∧
    Ev.importBig false ∈ (buildDone cfgCookie oImportFail fsClean).trace ∧
    Ev.csrfGet true ∈ (buildDone cfgCookie oImportFail fsClean).trace ∧
    Ev.edit markerPath (markerFileContent 6) true ∈
      (buildDone cfgCookie oImportFail fsClean).trace := by
  decide

/-- Sample configuration with a cookie and an RSS feed option. -/
def cfgCookieRss : Config := ⟨"k", none, some "c", none, some "feed.xml"⟩

/-- Sample oracle for the RSS runs: everything succeeds except
the remote import. -/
def oImportFailRss : Oracle := ⟨true, some "build", true, true, true, false, true, true, true, true, 7, 8⟩

/-- Sample initial local file system containing the RSS feed file. -/
def fsRss : FS := ⟨false, false, [("feed.xml", "<rss></rss>")]⟩

/-- C3: refuted by the 3.0.0 code.  In a cookie run whose import call
fails, the CSRF token is still fetched and a metadata edit is still
issued although no successful import ever completed (the import
promise is not awaited before `getCSRFToken`). -/
theorem c3_csrf_fetched_without_import_success :
    Ev.csrfGet true ∈ (buildDone cfgCookieRss oImportFailRss fsRss).trace ∧
    Ev.edit (joinPath "/build" "feed.xml") ("<rss></rss>" ++ "\n" ++ rssMarkerComment 7) true ∈
      (buildDone cfgCookieRss oImportFailRss fsRss).trace ∧
    Ev.importBig true ∉ (buildDone cfgCookieRss oImportFailRss fsRss).trace ∧
    (buildDone cfgCookieRss oImportFailRss fsRss).result = RunResult.success := by
  decide

/-- From a passing RSS-read guard with a truthy RSS option, extract
the content the lookup finds. -/
lemma rssReadOk_lookup (cfg : Config) (fs0 : FS)
    (hrr : rssReadOk cfg fs0 = true) (hrf : ¬ truthyO cfg.rssFeed = false) :
    ∃ s, fs0.outDir.lookup (cfg.rssFeed.getD "") = some s := by
  rcases hL : fs0.outDir.lookup (cfg.rssFeed.getD "") with _ | s
  · exfalso
    unfold rssReadOk at hrr
    rw [hL] at hrr
    simp at hrr
    exact hrf hrr
  · exact ⟨s, rfl⟩

/-- Error message thrown by `uploadFile` in the 2.0.3 source when the
append request returns a non-success response. -/
def uploadFileErrorMsg (status statusText body : String) : String :=
  "Failed to upload: " ++ status ++ " " ++ statusText ++ " - " ++ body

/-- The upload error message always starts with the words naming the
upload step. -/
lemma uploadFileErrorMsg_named (s t b : String) :
    uploadFileErrorMsg s t b = "Failed to upload" ++ (": " ++ s ++ " " ++ t ++ " - " ++ b) := by
  apply String.ext
  have h2 : "Failed to upload: ".data = "Failed to upload".data ++ ": ".data := by decide
  simp [uploadFileErrorMsg, String.data_append, h2, List.append_assoc]

/-- C4: if the append call fails, the run aborts with the upload
error, no import and no metadata call is ever issued, and the error
surfaced names the upload step. -/
theorem c4_append_failure_aborts (cfg : Config) (o : Oracle) (fs0 : FS)
    (hk : ¬ cfg.apiKey = "") (hsi : o.siteInfoOk = true)
    (hsf : truthyO o.siteFolder = true) (hrr : rssReadOk cfg fs0 = true)
    (hcr : o.createOk = true) (hap : o.appendOk = false) :
    (buildDone cfg o fs0).result = RunResult.fatal DeployError.uploadAppendError ∧
    (buildDone cfg o fs0).trace.filter Ev.isImportOrMeta = [] ∧
    ∀ s t b : String, ∃ rest : String,
      uploadFileErrorMsg s t b = "Failed to upload" ++ rest := by
  refine ⟨?_, ?_, ?_⟩
  · rw [buildDone_result_char]
    simp [hk, hsi, hsf, hrr, hcr, hap]
  · unfold buildDone
    by_cases hrf : truthyO cfg.rssFeed = false
    · rcases htmp : fs0.tmpExists with _ | _ <;>
        simp [hk, hsi, hsf, hrf, hcr, hap, htmp, Ev.isImportOrMeta, Ev.isMeta]
    · rcases rssReadOk_lookup cfg fs0 hrr hrf with ⟨s, hL⟩
      rcases htmp : fs0.tmpExists with _ | _ <;>
        simp [hk, hsi, hsf, hrf, hL, hcr, hap, htmp, Ev.isImportOrMeta, Ev.isMeta]
  · intro s t b
    exact ⟨": " ++ s ++ " " ++ t ++ " - " ++ b, uploadFileErrorMsg_named s t b⟩

/-- Sample oracle: the append call fails, everything else succeeds. -/
def oAppendFail : Oracle := ⟨true, some "build", true, false, true, true, true, true, true, true, 5, 6⟩

/-- Witness for C4 at a concrete run whose append fails. -/
theorem c4_append_failure_aborts_witness :
    (¬ cfgPlain.apiKey = "") ∧
    ((buildDone cfgPlain oAppendFail fsClean).result = RunResult.fatal DeployError.uploadAppendError ∧
     (buildDone cfgPlain oAppendFail fsClean).trace.filter Ev.isImportOrMeta = [] ∧
     ∀ s t b : String, ∃ rest : String,
       uploadFileErrorMsg s t b = "Failed to upload" ++ rest) :=
  ⟨by decide,
   c4_append_failure_aborts cfgPlain oAppendFail fsClean (by decide) (by decide)
     (by decide) (by decide) (by decide) (by decide)⟩

/-- C5: when no cookie is supplied, no CSRF and no file-edit call is
ever issued in any run, and a run whose required calls succeed still
reports success, with the informational warning logged. -/
theorem c5_no_cookie_no_metadata (cfg : Config) (o : Oracle) (fs0 : FS)
    (hck : truthyO cfg.cookie = false) :
    (buildDone cfg o fs0).trace.filter Ev.isMeta = [] ∧
    (¬ cfg.apiKey = "" → o.siteInfoOk = true → truthyO o.siteFolder = true →
      rssReadOk cfg fs0 = true → o.createOk = true → o.appendOk = true →
      o.importOk = true →
      (buildDone cfg o fs0).result = RunResult.success ∧
      Ev.logWarn cookieWarnMsg ∈ (buildDone cfg o fs0).trace) := by
  constructor
  · unfold buildDone
    by_cases hk : cfg.apiKey = "" <;>
      by_cases hsi : o.siteInfoOk = false <;>
        by_cases hsf : truthyO o.siteFolder = false <;>
          by_cases hrf : truthyO cfg.rssFeed = false <;>
            rcases hL : fs0.outDir.lookup (cfg.rssFeed.getD "") with _ | s <;>
              by_cases hcr : o.createOk = false <;>
                by_cases hap : o.appendOk = false <;>
                  rcases htmp : fs0.tmpExists with _ | _ <;>
                    simp [hck, hk, hsi, hsf, hrf, hL, hcr, hap, htmp,
                      afterFinalize_filter_meta, Ev.isMeta]
  · intro hk hsi hsf hrr hcr hap him
    refine ⟨?_, ?_⟩
    · rw [buildDone_result_char]
      simp [hk, hsi, hsf, hrr, hcr, hap, him, hck]
    · unfold buildDone
      by_cases hrf : truthyO cfg.rssFeed = false
      · rcases htmp : fs0.tmpExists with _ | _ <;>
          simp [hk, hsi, hsf, hrf, hcr, hap, him, hck, htmp,
            finalizeUpload, afterFinalize]
      · rcases rssReadOk_lookup cfg fs0 hrr hrf with ⟨s, hL⟩
        rcases htmp : fs0.tmpExists with _ | _ <;>
          simp [hk, hsi, hsf, hrf, hL, hcr, hap, him, hck, htmp,
            finalizeUpload, afterFinalize]

/-- Sample oracle with every remote call succeeding. -/
def oAllOk : Oracle := ⟨true, some "build", true, true, true, true, true, true, true, true, 5, 6⟩

/-- Witness for C5 at a concrete successful no-cookie run. -/
theorem c5_no_cookie_no_metadata_witness :
    truthyO cfgPlain.cookie = false ∧
    (buildDone cfgPlain oAllOk fsClean).trace.filter Ev.isMeta = [] ∧
    (buildDone cfgPlain oAllOk fsClean).result = RunResult.success ∧
    Ev.logWarn cookieWarnMsg ∈ (buildDone cfgPlain oAllOk fsClean).trace := by
  refine ⟨by decide, (c5_no_cookie_no_metadata cfgPlain oAllOk fsClean (by decide)).1, ?_, ?_⟩
  · exact ((c5_no_cookie_no_metadata cfgPlain oAllOk fsClean (by decide)).2 (by decide)
      (by decide) (by decide) (by decide) (by decide) (by decide) (by decide)).1
  · exact ((c5_no_cookie_no_metadata cfgPlain oAllOk fsClean (by decide)).2 (by decide)
      (by decide) (by decide) (by decide) (by decide) (by decide) (by decide)).2

/-- C6: every run that reaches the upload phase and resolves
`finalizeUpload` — in particular every fully successful run and every
run whose MetadataUpdate failed — removes the archive file and the
staging directory at its end; and a stale staging directory from a
previous run is removed before staging begins. -/
theorem c6_cleanup_and_stale_removal (cfg : Config) (o : Oracle) (fs0 : FS)
    (hk : ¬ cfg.apiKey = "") (hsi : o.siteInfoOk = true)
    (hsf : truthyO o.siteFolder = true) (hrr : rssReadOk cfg fs0 = true)
    (hcr : o.createOk = true) (hap : o.appendOk = true)
    (hok : truthyO cfg.cookie = true ∨ o.importOk = true) :
    (buildDone cfg o fs0).result = RunResult.success ∧
    (buildDone cfg o fs0).fs.tmpExists = false ∧
    (buildDone cfg o fs0).fs.zipExists = false ∧
    (fs0.tmpExists = true →
      [Ev.rmTmp, Ev.stage].Sublist (buildDone cfg o fs0).trace) := by
  have hcnot : ¬(truthyO cfg.cookie = false ∧ o.importOk = false) := by
    rcases hok with h | h <;> simp [h]
  refine ⟨?_, ?_, ?_, ?_⟩
  · rw [buildDone_result_char]
    simp [hk, hsi, hsf, hrr, hcr, hap, hcnot]
  · rw [buildDone_fs_char]
    simp [hk, hsi, hsf, hrr, hcr, hap, hcnot, stagedFS]
  · rw [buildDone_fs_char]
    simp [hk, hsi, hsf, hrr, hcr, hap, hcnot, stagedFS]
  · intro htmp
    unfold buildDone
    by_cases hrf : truthyO cfg.rssFeed = false
    · simp only [hk, hsi, hsf, hrf, hcr, hap, htmp]
      simp [hk, hsi, hsf, hrf, hcr, hap, htmp]
      apply sublist_afterFinalize
      apply List.Sublist.cons
      apply List.Sublist.cons₂
      apply List.Sublist.cons
      apply List.Sublist.cons₂
      exact List.nil_sublist _
    · rcases rssReadOk_lookup cfg fs0 hrr hrf with ⟨s, hL⟩
      simp [hk, hsi, hsf, hrf, hL, hcr, hap, htmp]
      apply sublist_afterFinalize
      apply List.Sublist.cons
      apply List.Sublist.cons₂
      apply List.Sublist.cons
      apply List.Sublist.cons₂
      exact List.nil_sublist _

/-- Sample oracle: the CSRF site-info call fails, everything else
succeeds — a run that fails during MetadataUpdate. -/
def oCsrfFail : Oracle := ⟨true, some "build", true, true, true, true, false, true, true, true, 5, 6⟩

/-- Sample initial local file system with a stale staging directory
left behind by a previous failed run. -/
def fsStale : FS := ⟨true, false, []⟩

/-- Witness for C6 at a concrete cookie run whose MetadataUpdate fails
and whose initial state holds a stale staging directory. -/
theorem c6_cleanup_and_stale_removal_witness :
    (¬ cfgCookie.apiKey = "") ∧
    ((buildDone cfgCookie oCsrfFail fsStale).result = RunResult.success ∧
     (buildDone cfgCookie oCsrfFail fsStale).fs.tmpExists = false ∧
     (buildDone cfgCookie oCsrfFail fsStale).fs.zipExists = false ∧
     [Ev.rmTmp, Ev.stage].Sublist (buildDone cfgCookie oCsrfFail fsStale).trace) := by
  have h := c6_cleanup_and_stale_removal cfgCookie oCsrfFail fsStale (by decide)
    (by decide) (by decide) (by decide) (by decide) (by decide) (Or.inl (by decide))
  exact ⟨by decide, h.1, h.2.1, h.2.2.1, h.2.2.2 (by decide)⟩

/-- C7: when the RSS feed option names an existing file, the first (and
leading) file-edit call of the run submits exactly the original file
content followed by one newline and one marker comment. -/
theorem c7_rss_edit_content (cfg : Config) (o : Oracle) (fs0 : FS) (rf orig : String)
    (hk : ¬ cfg.apiKey = "") (hsi : o.siteInfoOk = true)
    (hsf : truthyO o.siteFolder = true)
    (hrf : cfg.rssFeed = some rf) (hrfne : rf ≠ "")
    (hL : fs0.outDir.lookup rf = some orig)
    (hcr : o.createOk = true) (hap : o.appendOk = true)
    (hck : truthyO cfg.cookie = true)
    (hci : o.csrfInfoOk = true) (hcs : o.csrfOk = true) :
    ((buildDone cfg o fs0).trace.filter Ev.isEditEv).head? =
      some (Ev.edit (joinPath ("/" ++ o.siteFolder.getD "") rf)
        (orig ++ "\n" ++ rssMarkerComment o.tsRss) o.rssEditOk) := by
  have htr2 : truthyO (some rf) = true := by simp [truthyO, hrfne]
  unfold buildDone
  rcases hre : o.rssEditOk with _ | _ <;>
    rcases hme : o.markerEditOk with _ | _ <;>
      rcases htmp : fs0.tmpExists with _ | _ <;>
        simp [hk, hsi, hsf, hrf, htr2, hL, hcr, hap, hck, hci, hcs,
          hre, hme, htmp, finalizeUpload, afterFinalize, Ev.isEditEv, List.filter_append]

/-- Sample oracle for the RSS runs with every remote call succeeding. -/
def oAllOkRss : Oracle := ⟨true, some "build", true, true, true, true, true, true, true, true, 7, 8⟩

/-- Witness for C7 at a concrete run with an existing feed.xml. -/
theorem c7_rss_edit_content_witness :
    (¬ cfgCookieRss.apiKey = "") ∧
    ((buildDone cfgCookieRss oAllOkRss fsRss).trace.filter Ev.isEditEv).head? =
      some (Ev.edit (joinPath ("/" ++ oAllOkRss.siteFolder.getD "") "feed.xml")
        ("<rss></rss>" ++ "\n" ++ rssMarkerComment oAllOkRss.tsRss) oAllOkRss.rssEditOk) :=
  ⟨by decide,
   c7_rss_edit_content cfgCookieRss oAllOkRss fsRss "feed.xml" "<rss></rss>"
     (by decide) (by decide) (by decide) (by decide) (by decide) (by decide)
     (by decide) (by decide) (by decide) (by decide) (by decide)⟩

/-- Sample initial local file system whose output directory contains a
404.html page. -/
def fs404 : FS := ⟨false, false, [("404.html", "x")]⟩

/-- C8 as stated is false: a concrete run renames 404.html to
not_found.html inside the source output directory itself, so the
pipeline does modify the source output directory. -/
theorem c8_counterexample_outdir_mutated :
    (buildDone cfgPlain oAllOk fs404).fs.outDir ≠ fs404.outDir ∧
    (buildDone cfgPlain oAllOk fs404).fs.outDir = [("not_found.html", "x")] := by
  decide

/-- C8 amended: the only mutation the pipeline ever applies to the
source output directory is the 404.html → not_found.html rename; every
run leaves the output directory either untouched or equal to its
404-renamed image. -/
theorem c8_outdir_only_404_rename (cfg : Config) (o : Oracle) (fs0 : FS) :
    (buildDone cfg o fs0).fs.outDir = fs0.outDir ∨
    (buildDone cfg o fs0).fs.outDir = rename404 fs0.outDir := by
  rw [buildDone_fs_char]
  repeat' split
  all_goals first
    | exact Or.inl rfl
    | exact Or.inr rfl

/-- C9: in a cookie run whose RSS file-edit call throws, the marker
edit is not attempted (the RSS edit is the only edit call), the error
is logged, and the run still reports success. -/
theorem c9_rss_edit_failure_skips_marker (cfg : Config) (o : Oracle) (fs0 : FS)
    (rf orig : String)
    (hk : ¬ cfg.apiKey = "") (hsi : o.siteInfoOk = true)
    (hsf : truthyO o.siteFolder = true)
    (hrf : cfg.rssFeed = some rf) (hrfne : rf ≠ "")
    (hL : fs0.outDir.lookup rf = some orig)
    (hcr : o.createOk = true) (hap : o.appendOk = true)
    (hck : truthyO cfg.cookie = true)
    (hci : o.csrfInfoOk = true) (hcs : o.csrfOk = true)
    (hre : o.rssEditOk = false) :
    (buildDone cfg o fs0).result = RunResult.success ∧
    (buildDone cfg o fs0).trace.filter Ev.isEditEv =
      [Ev.edit (joinPath ("/" ++ o.siteFolder.getD "") rf)
        (orig ++ "\n" ++ rssMarkerComment o.tsRss) false] ∧
    Ev.logError finalizeFailMsg ∈ (buildDone cfg o fs0).trace := by
  have htr2 : truthyO (some rf) = true := by simp [truthyO, hrfne]
  refine ⟨?_, ?_, ?_⟩
  · rw [buildDone_result_char]
    simp [hk, hsi, hsf, hcr, hap, hck, rssReadOk, htr2, hrf, hL]
  · unfold buildDone
    rcases htmp : fs0.tmpExists with _ | _ <;>
      simp [hk, hsi, hsf, hrf, htr2, hL, hcr, hap, hck, hci, hcs,
        hre, htmp, finalizeUpload, afterFinalize, Ev.isEditEv, List.filter_append]
  · unfold buildDone
    rcases htmp : fs0.tmpExists with _ | _ <;>
      simp [hk, hsi, hsf, hrf, htr2, hL, hcr, hap, hck, hci, hcs,
        hre, htmp, finalizeUpload, afterFinalize]

/-- Sample oracle: the RSS file-edit call fails, everything else
succeeds. -/
def oRssEditFail : Oracle := ⟨true, some "build", true, true, true, true, true, true, false, true, 7, 8⟩

/-- Witness for C9 at a concrete run whose RSS edit throws. -/
theorem c9_rss_edit_failure_skips_marker_witness :
    (¬ cfgCookieRss.apiKey = "") ∧
    ((buildDone cfgCookieRss oRssEditFail fsRss).result = RunResult.success ∧
     (buildDone cfgCookieRss oRssEditFail fsRss).trace.filter Ev.isEditEv =
       [Ev.edit (joinPath ("/" ++ oRssEditFail.siteFolder.getD "") "feed.xml")
         ("<rss></rss>" ++ "\n" ++ rssMarkerComment oRssEditFail.tsRss) false] ∧
     Ev.logError finalizeFailMsg ∈ (buildDone cfgCookieRss oRssEditFail fsRss).trace) :=
  ⟨by decide,
   c9_rss_edit_failure_skips_marker cfgCookieRss oRssEditFail fsRss "feed.xml" "<rss></rss>"
     (by decide) (by decide) (by decide) (by decide) (by decide) (by decide)
     (by decide) (by decide) (by decide) (by decide) (by decide) (by decide)⟩

/-- Request headers of the secondary cookie client (`ucfg`) built by
the 3.0.0 `NekoAPI` constructor when a cookie is supplied: empty
`Authorization`, empty `User-Agent`, the fixed Origin / Host / Referer
values, and the cookie. -/
def ucfgHeaders (cookie : String) : List (String × String) :=
  [("Authorization", ""),
   ("Origin", "https://nekoweb.org"),
   ("Host", "nekoweb.org"),
   ("User-Agent", ""),
   ("Referer", "https://nekoweb.org/?astro-adapter-nekoweb%403.0.0%20deployment%20library%20(pls%20no%20bans)"),
   ("Cookie", "token=" ++ cookie)]

/-- Configuration of an API client: its apiKey field and its fixed
request headers. -/
structure ClientCfg where
  apiKeyField : String
  headers : List (String × String)
deriving Repr, DecidableEq

/-- Embedding of the `ucfg` member the `NekoAPI` constructor builds:
present exactly when the cookie is truthy; the constructor receives
the caller's apiKey but fixes the cookie client's apiKey to the empty
string and never places the apiKey in its headers. -/
def mkUcfg (apiKey : String) (cookie : Option String) : Option ClientCfg :=
  if truthyO cookie then some ⟨"", ucfgHeaders (cookie.getD "")⟩ else none

/-- Headers built by `getToken` of the 2.0.3 source: with a truthy
cookie, cookie-based headers without any Authorization entry;
otherwise the apiKey as Authorization. -/
def getToken (apiKey cookie : String) : List (String × String) :=
  if cookie ≠ "" then
    [("Origin", "https://nekoweb.org"),
     ("Host", "nekoweb.org"),
     ("User-Agent", "astro-adapter-nekoweb/2.0.3 (https://github.com/jbcarreon123/astro-adapter-nekoweb)"),
     ("Referer", "https://nekoweb.org/?astro-adapter-nekoweb%402.0.3%20deployment%20library%20(pls%20no%20bans)"),
     ("Cookie", "token=" ++ cookie)]
  else
    [("User-Agent", "astro-adapter-nekoweb/2.0.3 (https://github.com/jbcarreon123/astro-adapter-nekoweb)"),
     ("Authorization", apiKey)]

/-- C10: whenever a cookie is supplied, the cookie client's
configuration is identical for any two apiKey values, its
Authorization header is the empty string and its apiKey field is
empty; likewise the 2.0.3 cookie headers are apiKey-independent. -/
theorem c10_cookie_client_apiKey_independent (k1 k2 : String) (co : Option String)
    (c : String) :
    mkUcfg k1 co = mkUcfg k2 co ∧
    (∀ cc : ClientCfg, mkUcfg k1 co = some cc →
      cc.headers.lookup "Authorization" = some "" ∧ cc.apiKeyField = "") ∧
    (c ≠ "" → getToken k1 c = getToken k2 c) := by
  refine ⟨rfl, ?_, ?_⟩
  · intro cc hcc
    unfold mkUcfg at hcc
    split at hcc
    · cases hcc
      constructor
      · simp [ucfgHeaders, List.lookup]
      · rfl
    · cases hcc
  · intro hc
    unfold getToken
    simp [hc]

/-- Witness for C10 at concrete keys and cookie. -/
theorem c10_cookie_client_apiKey_independent_witness :
    mkUcfg "keyA" (some "tok") = mkUcfg "keyB" (some "tok") ∧
    ((⟨"", ucfgHeaders "tok"⟩ : ClientCfg).headers.lookup "Authorization" = some "" ∧
     (⟨"", ucfgHeaders "tok"⟩ : ClientCfg).apiKeyField = "") ∧
    getToken "keyA" "tok" = getToken "keyB" "tok" :=
  ⟨(c10_cookie_client_apiKey_independent "keyA" "keyB" (some "tok") "tok").1,
   (c10_cookie_client_apiKey_independent "keyA" "keyB" (some "tok") "tok").2.1
     ⟨"", ucfgHeaders "tok"⟩ (by decide),
   (c10_cookie_client_apiKey_independent "keyA" "keyB" (some "tok") "tok").2.2
     (by decide)⟩

end Neko
